import Mathlib

/-!
Verification of the chat-room core of the repository `django-chat-app`.

The embedding models the storage-facing operations of
`chat/consumers.py` (`save_message`, `mark_message_read`,
`mark_room_read`, the `receive` event router) and the room-name /
unread-count logic of `chat/views.py` over an explicit database state.

JSON values carried by inbound events are modelled by `JValue`;
Python truthiness (`if msg_id:`) by `JValue.truthy`; the dictionary
operations `data.get(k)`, `data.get(k, d)` and `data[k]` by `dget`,
`dgetD` and `getField` (a `KeyError` escaping the handler is the
`exn` field of `RecvResult`).
-/

/-- A JSON scalar value as carried by an inbound websocket event. -/
inductive JValue where
  | null : JValue
  | bool (b : Bool) : JValue
  | num (n : Int) : JValue
  | str (s : String) : JValue
  deriving DecidableEq, Repr

/-- Python truthiness of a JSON value (`if v:`). -/
def JValue.truthy : JValue → Bool
  | .null => false
  | .bool b => b
  | .num n => n != 0
  | .str s => s != ""

/-- A chat room row: `ChatRoom(name, type)` from `chat/models.py`.
Names are unique, so a room is identified by its name. -/
structure ChatRoom where
  name : String
  rtype : String
  deriving DecidableEq, Repr

/-- A message row: `Message(sender, room, content, read_by)` from
`chat/models.py`. The room foreign key is represented by the room's
unique name; `readBy` is the many-to-many `read_by` reader set. -/
structure Message where
  id : Nat
  sender : String
  room : String
  content : JValue
  readBy : List String
  deriving DecidableEq, Repr

/-- The database state: registered usernames, rooms, messages, and the
next message id to be assigned. -/
structure DB where
  users : List String
  rooms : List ChatRoom
  messages : List Message
  nextId : Nat
  deriving DecidableEq, Repr

/-- Whether a room with the given name exists (`ChatRoom.objects.get`). -/
def DB.roomExists (db : DB) (name : String) : Bool :=
  db.rooms.any (fun r => r.name == name)

/-- The type of the room with the given name, if any. -/
def DB.roomTypeOf (db : DB) (name : String) : Option String :=
  (db.rooms.find? (fun r => r.name == name)).map (fun r => r.rtype)

/-- Model of `msg.read_by.add(user)`: idempotent add to the reader set. -/
def Message.addRead (m : Message) (u : String) : Message :=
  if u ∈ m.readBy then m else { m with readBy := m.readBy ++ [u] }

/-- Add `u` to the reader set of the message with id `mid`. -/
def DB.addReader (db : DB) (mid : Nat) (u : String) : DB :=
  let msgs := db.messages.map (fun m => if m.id == mid then m.addRead u else m)
  { db with messages := msgs }

/-- Event payload dictionary: association list of field name to value. -/
def EventData := List (String × JValue)

/-- Lookup `data[k]`: `none` models a `KeyError` being raised. -/
def getField (d : EventData) (k : String) : Option JValue :=
  (d.find? (fun p => p.1 == k)).map (fun p => p.2)

/-- Python `data.get(k)`: the stored value, or Python `None` (JSON null)
when the key is absent. -/
def dget (d : EventData) (k : String) : JValue :=
  (getField d k).getD .null

/-- Python `data.get(k, dflt)`: the stored value, or `dflt` when the key
is absent. -/
def dgetD (d : EventData) (k : String) (dflt : JValue) : JValue :=
  (getField d k).getD dflt

/-- Embedding of `ChatConsumer.save_message` (`chat/consumers.py`): look up the
sender by username, `get_or_create` the room (type `private` iff the
name starts with `private_`), create the message and add the sender to
its reader set. Any failure is caught and `none` is returned; the only
failure reachable in the model is an unknown sender. -/
def save_message (db : DB) (username : JValue) (roomName : String)
    (content : JValue) : DB × Option Nat :=
  match username with
  | .str u =>
    if u ∈ db.users then
      let roomType := if "private_".data.isPrefixOf roomName.data
                      then "private" else "group"
      let db1 := if db.roomExists roomName then db
                 else { db with rooms := db.rooms ++ [⟨roomName, roomType⟩] }
      let mid := db1.nextId
      let created : Message := ⟨mid, u, roomName, content, []⟩
      let db2 := { db1 with messages := db1.messages ++ [created],
                            nextId := mid + 1 }
      (db2.addReader mid u, some mid)
    else (db, none)
  | _ => (db, none)

/-- Coercion a JSON value undergoes when used as a primary-key lookup
(`Message.objects.get(id=message_id)`): integers and digit strings
resolve; anything else raises (caught by the caller). -/
def jvalToId : JValue → Option Nat
  | .num n => if 0 ≤ n then some n.toNat else none
  | .str s => s.toNat?
  | _ => none

/-- Embedding of `ChatConsumer.mark_message_read` (`chat/consumers.py`): look up the
user and the message, add the user to the message's reader set; any
failure is caught and the state is unchanged. -/
def mark_message_read (db : DB) (messageId : JValue) (username : JValue) : DB :=
  match username with
  | .str u =>
    if u ∈ db.users then
      match jvalToId messageId with
      | some mid =>
        if db.messages.any (fun m => m.id == mid) then db.addReader mid u
        else db
      | none => db
    else db
  | _ => db

/-- The queryset condition of `mark_room_read`:
`Message.objects.filter(room=room).exclude(read_by=user).exclude(sender=user)`. -/
def roomUnreadBy (roomName user : String) (m : Message) : Bool :=
  m.room == roomName && !(m.readBy.contains user) && m.sender != user

/-- The loop body of `mark_room_read`: `msg.read_by.add(user)` applied
to each message matched by the queryset, others untouched. -/
def bumpRead (roomName user : String) (m : Message) : Message :=
  if roomUnreadBy roomName user m
  then { m with readBy := m.readBy ++ [user] } else m

/-- Embedding of `ChatConsumer.mark_room_read` (`chat/consumers.py`): no-op for the
reserved `lobby` name; otherwise add `user` to the reader set of every
message of the room neither read nor authored by `user`, returning the
ids mutated; a missing room yields the empty list (exception caught). -/
def mark_room_read (db : DB) (roomName : String) (user : String) :
    DB × List Nat :=
  if roomName == "lobby" then (db, [])
  else if db.roomExists roomName then
    let ids := (db.messages.filter (roomUnreadBy roomName user)).map
      (fun m => m.id)
    let msgs := db.messages.map (bumpRead roomName user)
    ({ db with messages := msgs }, ids)
  else (db, [])

/-- The canonical two-party room name built by `privateRoomPage` and
`chatPage` (`chat/views.py`): `sorted` the two usernames, then
`f"private_{users[0]}_{users[1]}"`. -/
def privateRoomName (u1 u2 : String) : String :=
  let users := if u1.data ≤ u2.data then [u1, u2] else [u2, u1]
  "private_" ++ users.getD 0 "" ++ "_" ++ users.getD 1 ""

/-- The per-user unread count computed in `chatPage` (`chat/views.py`):
`Message.objects.filter(room__name=room_name, room__type="private")
.exclude(read_by=request.user).count()`. -/
def chatPage_unread_count (db : DB) (roomName : String) (user : String) : Nat :=
  (db.messages.filter (fun m =>
    m.room == roomName
    && db.roomTypeOf roomName == some "private"
    && !(m.readBy.contains user))).length

/-- Helper for Python's `in` on strings: does `pat` occur contiguously? -/
def hasSub (pat : List Char) : List Char → Bool
  | [] => pat.isEmpty
  | c :: cs => pat.isPrefixOf (c :: cs) || hasSub pat cs

/-- Python `sub in s` substring containment, on the character data. -/
def strContains (s sub : String) : Bool :=
  hasSub sub.data s.data

/-- Python `s.split(sep)` for a single-character separator, on the
character data: splits at every occurrence, keeping empty pieces. -/
def splitChar (sep : Char) : List Char → List (List Char)
  | [] => [[]]
  | c :: cs =>
    let r := splitChar sep cs
    if c = sep then [] :: r
    else (c :: r.headD []) :: r.tail

/-- Python `s.split('_')` yielding strings. -/
def pySplitUnderscore (s : String) : List String :=
  (splitChar '_' s.data).map (fun l => String.mk l)

/-- An outbound payload handed to `channel_layer.group_send`, one
constructor per dictionary shape built in `ChatConsumer.receive`.
Optional fields record keys present only on some paths. -/
inductive Payload where
  | chatMessage (message : JValue) (username : JValue) (id : Option Nat)
  | userTyping (username : JValue) (isTyping : JValue)
  | messageRead (messageId : JValue) (username : JValue)
  | bulkRead (messageIds : List Nat) (username : String)
  | lobbyNotice (sender : JValue) (targetUser : Option String)
      (roomName : Option String) (roomType : Option String)
  deriving DecidableEq, Repr

/-- A `group_send` call: target group name and payload. -/
structure GroupSend where
  group : String
  payload : Payload
  deriving DecidableEq, Repr

/-- Outcome of one `receive` call: the database afterwards, the
`group_send`s issued in order, and `exn = some e` when an uncaught
exception escaped the handler (which aborts the session). -/
structure RecvResult where
  db : DB
  sends : List GroupSend
  exn : Option String
  deriving DecidableEq, Repr

/-- The lobby `notification_data` payload built in the `chat_message`
branch of `ChatConsumer.receive`: for a room name containing
`private`, split on `_` and (when at least three parts exist) target
whichever embedded identity differs from the sender; otherwise report
a group-room notification. -/
def noticeFor (roomName : String) (username : JValue) : Payload :=
  if strContains roomName "private" then
    let parts := pySplitUnderscore roomName
    if 3 ≤ parts.length then
      let target := if JValue.str (parts.getD 1 "") == username
                    then parts.getD 2 "" else parts.getD 1 ""
      .lobbyNotice username (some target) none (some "private")
    else
      .lobbyNotice username none none none
  else
    .lobbyNotice username none (some roomName) (some "group")

/-- Embedding of `ChatConsumer.receive` (`chat/consumers.py`): dispatch an inbound
event on its `type` field. `roomName` is `self.room_name`, `scopeUser`
the authenticated `self.scope["user"].username`. -/
def receive (db : DB) (roomName : String) (scopeUser : String)
    (data : EventData) : RecvResult :=
  let msgType := dgetD data "type" (.str "chat_message")
  let username := dget data "username"
  let roomGroup := "chat_" ++ roomName
  if msgType == JValue.str "chat_message" then
    match getField data "message" with
    | none => ⟨db, [], some "KeyError"⟩
    | some message =>
      let res := save_message db username roomName message
      let chatSend : GroupSend :=
        ⟨roomGroup, .chatMessage message username res.2⟩
      ⟨res.1, [chatSend, ⟨"chat_lobby", noticeFor roomName username⟩], none⟩
  else if msgType == JValue.str "typing" then
    ⟨db, [⟨roomGroup, .userTyping username (dgetD data "is_typing" (.bool true))⟩],
      none⟩
  else if msgType == JValue.str "read_receipt" then
    let msgId := dget data "message_id"
    if msgId.truthy then
      let db1 := mark_message_read db msgId username
      ⟨db1, [⟨roomGroup, .messageRead msgId username⟩], none⟩
    else
      ⟨db, [], none⟩
  else if msgType == JValue.str "mark_read" then
    let res := mark_room_read db roomName scopeUser
    if res.2.isEmpty then ⟨res.1, [], none⟩
    else ⟨res.1, [⟨roomGroup, .bulkRead res.2 scopeUser⟩], none⟩
  else
    ⟨db, [], none⟩

/-! ### Helper lemmas -/

theorem string_data_inj {a b : String} (h : a.data = b.data) : a = b := by
  cases a; cases b; exact congrArg String.mk h

theorem string_le_of_data_le {a b : String} (h : a.data ≤ b.data) : a ≤ b :=
  String.le_iff_toList_le.mpr h

/-- Reader sets never shrink from `db` to `db'`: every message survives
with the same id and a superset reader set. -/
def readersPreserved (db db' : DB) : Prop :=
  ∀ m ∈ db.messages, ∃ m' ∈ db'.messages,
    m'.id = m.id ∧ ∀ x ∈ m.readBy, x ∈ m'.readBy

theorem readersPreserved_refl (db : DB) : readersPreserved db db :=
  fun m hm => ⟨m, hm, rfl, fun _ hx => hx⟩

theorem readersPreserved_trans {a b c : DB} (h1 : readersPreserved a b)
    (h2 : readersPreserved b c) : readersPreserved a c := by
  intro m hm
  obtain ⟨m1, hm1, hid1, hrb1⟩ := h1 m hm
  obtain ⟨m2, hm2, hid2, hrb2⟩ := h2 m1 hm1
  exact ⟨m2, hm2, hid2.trans hid1, fun x hx => hrb2 x (hrb1 x hx)⟩

theorem addRead_id (m : Message) (u : String) : (m.addRead u).id = m.id := by
  unfold Message.addRead; split <;> rfl

theorem addRead_mono (m : Message) (u : String) :
    ∀ x ∈ m.readBy, x ∈ (m.addRead u).readBy := by
  intro x hx
  unfold Message.addRead; split
  · exact hx
  · exact List.mem_append_left _ hx

theorem addReader_preserved (db : DB) (mid : Nat) (u : String) :
    readersPreserved db (db.addReader mid u) := by
  intro m hm
  refine ⟨if m.id == mid then m.addRead u else m, List.mem_map_of_mem _ hm, ?_, ?_⟩
  · split
    · exact addRead_id m u
    · rfl
  · split
    · exact addRead_mono m u
    · exact fun _ hx => hx

theorem preserved_addReader_append (db : DB) (extra : List Message)
    (db2 : DB) (mid : Nat) (u : String)
    (hmsgs : db2.messages = db.messages ++ extra) :
    readersPreserved db (db2.addReader mid u) := by
  intro m hm
  refine ⟨if m.id == mid then m.addRead u else m, ?_, ?_, ?_⟩
  · simp only [DB.addReader, hmsgs]
    exact List.mem_map_of_mem _ (List.mem_append_left _ hm)
  · split
    · exact addRead_id m u
    · rfl
  · split
    · exact addRead_mono m u
    · exact fun _ hx => hx

theorem save_message_preserved (db : DB) (username : JValue)
    (roomName : String) (content : JValue) :
    readersPreserved db (save_message db username roomName content).1 := by
  cases username with
  | null => exact readersPreserved_refl db
  | bool b => exact readersPreserved_refl db
  | num n => exact readersPreserved_refl db
  | str u =>
    by_cases hu : u ∈ db.users
    · by_cases hr : db.roomExists roomName = true
      · simp only [save_message, hu, hr, if_true]
        exact preserved_addReader_append db _ _ _ u rfl
      · simp only [save_message, hu, hr, if_true, if_false]
        exact preserved_addReader_append db _ _ _ u rfl
    · simp only [save_message, hu, if_false]
      exact readersPreserved_refl db

theorem mark_message_read_preserved (db : DB) (messageId username : JValue) :
    readersPreserved db (mark_message_read db messageId username) := by
  cases username with
  | null => exact readersPreserved_refl db
  | bool b => exact readersPreserved_refl db
  | num n => exact readersPreserved_refl db
  | str u =>
    simp only [mark_message_read]
    split
    · split
      · split
        · exact addReader_preserved _ _ _
        · exact readersPreserved_refl db
      · exact readersPreserved_refl db
    · exact readersPreserved_refl db

theorem mark_room_read_preserved (db : DB) (roomName user : String) :
    readersPreserved db (mark_room_read db roomName user).1 := by
  unfold mark_room_read
  split
  · exact readersPreserved_refl db
  · split
    · intro m hm
      refine ⟨bumpRead roomName user m, List.mem_map_of_mem _ hm, ?_, ?_⟩
      · unfold bumpRead; split <;> rfl
      · unfold bumpRead; split
        · exact fun x hx => List.mem_append_left _ hx
        · exact fun _ hx => hx
    · exact readersPreserved_refl db

/-! ### Claim theorems -/

/-- C3 (counterexample): for the distinct identities `alice` and
`bob` the derived two-party room name is `private_alice_bob`, not
`direct_alice_bob` as the claim states. -/
theorem C3_counterexample :
    "alice" ≠ "bob" ∧
    privateRoomName "alice" "bob" = "private_alice_bob" ∧
    privateRoomName "alice" "bob" ≠ "direct_alice_bob" ∧
    privateRoomName "bob" "alice" ≠ "direct_alice_bob" := by decide

/-- C3 (amended): for distinct user identities the two-party room
name is `private_<lexicographically-smaller>_<lexicographically-larger>`,
and it is independent of argument order, so both participants derive the
identical room identity. -/
theorem C3_theorem (a b : String) (h : a ≠ b) :
    privateRoomName a b = "private_" ++ min a b ++ "_" ++ max a b ∧
    privateRoomName a b = privateRoomName b a := by
  by_cases hab : a.data ≤ b.data
  · by_cases hba : b.data ≤ a.data
    · exact absurd (string_data_inj (le_antisymm hab hba)) h
    · have h1 : a ≤ b := string_le_of_data_le hab
      constructor
      · simp [privateRoomName, hab, min_eq_left h1, max_eq_right h1]
      · simp [privateRoomName, hab, hba]
  · have hba : b.data ≤ a.data := le_of_not_le hab
    have h1 : b ≤ a := string_le_of_data_le hba
    constructor
    · simp [privateRoomName, hab, hba, min_eq_right h1, max_eq_left h1]
    · simp [privateRoomName, hab, hba]

/-- Witness for C3 at the concrete pair `("alice", "bob")`. -/
theorem C3_witness :
    "alice" ≠ "bob" ∧
    (privateRoomName "alice" "bob"
        = "private_" ++ min "alice" "bob" ++ "_" ++ max "alice" "bob" ∧
      privateRoomName "alice" "bob" = privateRoomName "bob" "alice") :=
  ⟨by decide, C3_theorem "alice" "bob" (by decide)⟩

/-- C9: no operation removes a user from a message's reader set:
`save_message`, `mark_message_read` and `mark_room_read` each carry
every existing message to one with the same id and a reader set
containing all previous readers. -/
theorem C9_theorem (db : DB) (username messageId : JValue)
    (roomName : String) (content : JValue) (roomName2 user : String) :
    readersPreserved db (save_message db username roomName content).1 ∧
    readersPreserved db (mark_message_read db messageId username) ∧
    readersPreserved db (mark_room_read db roomName2 user).1 :=
  ⟨save_message_preserved db username roomName content,
    mark_message_read_preserved db messageId username,
    mark_room_read_preserved db roomName2 user⟩

theorem addReader_new_message (u roomName : String) (content : JValue)
    (mid : Nat) (db2 : DB) (pre : List Message)
    (h2 : db2.messages = pre ++ [⟨mid, u, roomName, content, []⟩]) :
    ∃ m ∈ (db2.addReader mid u).messages, m.id = mid ∧ m.sender ∈ m.readBy := by
  refine ⟨Message.addRead ⟨mid, u, roomName, content, []⟩ u, ?_, ?_, ?_⟩
  · simp only [DB.addReader, h2, List.map_append, List.map_cons, List.map_nil,
      beq_self_eq_true, if_true]
    exact List.mem_append_right _ (List.mem_singleton_self _)
  · simp [Message.addRead]
  · simp [Message.addRead]

/-- C8: whenever `save_message` succeeds with id `mid`, the stored
message with id `mid` has its sender in its reader set. -/
theorem C8_theorem (db : DB) (username : JValue) (roomName : String)
    (content : JValue) (db' : DB) (mid : Nat)
    (h : save_message db username roomName content = (db', some mid)) :
    ∃ m ∈ db'.messages, m.id = mid ∧ m.sender ∈ m.readBy := by
  cases username with
  | null => simp [save_message] at h
  | bool b => simp [save_message] at h
  | num n => simp [save_message] at h
  | str u =>
    by_cases hu : u ∈ db.users
    · by_cases hr : db.roomExists roomName = true
      · simp only [save_message, hu, hr, if_true] at h
        injection h with h1 h2
        injection h2 with h2
        subst h2; subst h1
        exact addReader_new_message u roomName content _ _ db.messages rfl
      · simp only [save_message, hu, hr, if_true, if_false] at h
        injection h with h1 h2
        injection h2 with h2
        subst h2; subst h1
        exact addReader_new_message u roomName content _ _ db.messages rfl
    · simp [save_message, hu] at h

/-- Witness for C8: a concrete successful save. -/
theorem C8_witness :
    save_message ⟨["alice"], [], [], 1⟩ (.str "alice") "room1" (.str "hi")
      = (⟨["alice"], [⟨"room1", "group"⟩],
          [⟨1, "alice", "room1", .str "hi", ["alice"]⟩], 2⟩, some 1) ∧
    ∃ m ∈ (⟨["alice"], [⟨"room1", "group"⟩],
        [⟨1, "alice", "room1", .str "hi", ["alice"]⟩], 2⟩ : DB).messages,
      m.id = 1 ∧ m.sender ∈ m.readBy :=
  ⟨by decide, C8_theorem ⟨["alice"], [], [], 1⟩ (.str "alice") "room1"
    (.str "hi") _ 1 (by decide)⟩

theorem contains_append_self (l : List String) (u : String) :
    (l ++ [u]).contains u = true :=
  List.elem_iff.mpr (List.mem_append_right _ (List.mem_singleton_self _))

theorem roomUnreadBy_after (roomName user : String) (m : Message) :
    roomUnreadBy roomName user (bumpRead roomName user m) = false := by
  by_cases h : roomUnreadBy roomName user m = true
  · simp only [bumpRead, h, if_true]
    simp [roomUnreadBy, contains_append_self]
  · simp only [Bool.not_eq_true] at h
    simp [bumpRead, h]

/-- C6: applying `mark_room_read` twice consecutively for the same
room and user yields the empty id sequence on the second call. -/
theorem C6_theorem (db : DB) (roomName user : String) :
    (mark_room_read (mark_room_read db roomName user).1 roomName user).2 = [] := by
  by_cases hl : roomName = "lobby"
  · simp [mark_room_read, hl]
  · by_cases hr : db.roomExists roomName = true
    · have h1 : mark_room_read db roomName user =
          ({ db with messages := db.messages.map (bumpRead roomName user) },
            (db.messages.filter (roomUnreadBy roomName user)).map
              (fun m => m.id)) := by
        simp [mark_room_read, hl, hr]
      rw [h1]
      have hr2 : ({ db with
          messages := db.messages.map (bumpRead roomName user) } :
            DB).roomExists roomName = true := hr
      simp only [mark_room_read, hl, hr2, if_true, if_false]
      simp only [beq_iff_eq, hl, if_false]
      rw [List.map_eq_nil_iff, List.filter_eq_nil_iff]
      intro a ha
      obtain ⟨m, hm, rfl⟩ := List.mem_map.mp ha
      simp [roomUnreadBy_after]
    · have h1 : mark_room_read db roomName user = (db, []) := by
        simp [mark_room_read, hl, hr]
      rw [h1]
      simp [mark_room_read, hl, hr]

theorem roomUnreadBy_iff (roomName user : String) (m : Message) :
    roomUnreadBy roomName user m = true ↔
      (m.room = roomName ∧ user ∉ m.readBy ∧ m.sender ≠ user) := by
  simp [roomUnreadBy, List.contains, List.elem_iff, and_assoc]

/-- C5 (counterexample): a room named `lobby` can hold a message
neither read nor authored by `bob`, yet `mark_room_read` for `lobby`
and `bob` mutates nothing and returns no id, contradicting the claim
for that room name. -/
theorem C5_counterexample :
    let db : DB := ⟨["alice", "bob"], [⟨"lobby", "group"⟩],
      [⟨1, "alice", "lobby", JValue.str "hi", ["alice"]⟩], 2⟩
    db.roomExists "lobby" = true ∧
    (∃ m ∈ db.messages, m.room = "lobby" ∧ "bob" ∉ m.readBy ∧ m.sender ≠ "bob") ∧
    mark_room_read db "lobby" "bob" = (db, []) := by decide

/-- C5 (amended): for every room name other than the reserved
`lobby` (for which the operation is a deliberate no-op), `mark_room_read`
adds the user to the reader set of exactly those messages of the room
the user has neither read nor authored, returns exactly the ids of the
messages so mutated, and returns the empty sequence without error when
the room does not exist. -/
theorem C5_theorem (db : DB) (roomName user : String)
    (hn : roomName ≠ "lobby")
    (hnd : (db.messages.map (fun m => m.id)).Nodup) :
    (db.roomExists roomName = false →
      mark_room_read db roomName user = (db, [])) ∧
    (db.roomExists roomName = true →
      ((mark_room_read db roomName user).1.messages.length
          = db.messages.length) ∧
      (∀ m ∈ db.messages, ∃ m' ∈ (mark_room_read db roomName user).1.messages,
        m'.id = m.id ∧ m'.sender = m.sender ∧ m'.room = m.room ∧
        m'.readBy = (if m.room = roomName ∧ user ∉ m.readBy ∧ m.sender ≠ user
                     then m.readBy ++ [user] else m.readBy)) ∧
      (∀ m ∈ db.messages,
        (m.id ∈ (mark_room_read db roomName user).2 ↔
          (m.room = roomName ∧ user ∉ m.readBy ∧ m.sender ≠ user)))) := by
  constructor
  · intro hab
    simp [mark_room_read, hn, hab]
  · intro hr
    have h1 : mark_room_read db roomName user =
        ({ db with messages := db.messages.map (bumpRead roomName user) },
          (db.messages.filter (roomUnreadBy roomName user)).map
            (fun m => m.id)) := by
      simp [mark_room_read, hn, hr]
    rw [h1]
    refine ⟨by simp, ?_, ?_⟩
    · intro m hm
      refine ⟨bumpRead roomName user m, List.mem_map_of_mem _ hm, ?_⟩
      by_cases hp : roomUnreadBy roomName user m = true
      · have hprop := (roomUnreadBy_iff roomName user m).mp hp
        refine ⟨?_, ?_, ?_, ?_⟩ <;> simp [bumpRead, hp, hprop]
      · have hp' : roomUnreadBy roomName user m = false := by
          simpa using hp
        have hprop : ¬(m.room = roomName ∧ user ∉ m.readBy ∧ m.sender ≠ user) :=
          fun h => hp ((roomUnreadBy_iff roomName user m).mpr h)
        refine ⟨?_, ?_, ?_, ?_⟩ <;> simp [bumpRead, hp', hprop]
    · intro m hm
      constructor
      · intro hmem
        obtain ⟨m0, hm0f, hid⟩ := List.mem_map.mp hmem
        obtain ⟨hm0, hp⟩ := List.mem_filter.mp hm0f
        have : m0 = m := List.inj_on_of_nodup_map hnd hm0 hm hid
        exact (roomUnreadBy_iff roomName user m).mp (this ▸ hp)
      · intro hprop
        exact List.mem_map_of_mem _
          (List.mem_filter.mpr ⟨hm, (roomUnreadBy_iff roomName user m).mpr hprop⟩)

/-- Witness for C5: a concrete room `room1` with one unread message. -/
theorem C5_witness :
    let db : DB := ⟨["alice", "bob"], [⟨"room1", "group"⟩],
      [⟨1, "alice", "room1", JValue.str "hi", ["alice"]⟩], 2⟩
    ("room1" : String) ≠ "lobby" ∧
    (db.messages.map (fun m => m.id)).Nodup ∧
    ((db.roomExists "room1" = false →
        mark_room_read db "room1" "bob" = (db, [])) ∧
      (db.roomExists "room1" = true →
        ((mark_room_read db "room1" "bob").1.messages.length
            = db.messages.length) ∧
        (∀ m ∈ db.messages,
          ∃ m' ∈ (mark_room_read db "room1" "bob").1.messages,
          m'.id = m.id ∧ m'.sender = m.sender ∧ m'.room = m.room ∧
          m'.readBy = (if m.room = "room1" ∧ "bob" ∉ m.readBy ∧ m.sender ≠ "bob"
                       then m.readBy ++ ["bob"] else m.readBy)) ∧
        (∀ m ∈ db.messages,
          (m.id ∈ (mark_room_read db "room1" "bob").2 ↔
            (m.room = "room1" ∧ "bob" ∉ m.readBy ∧ m.sender ≠ "bob"))))) :=
  ⟨by decide, by decide, C5_theorem _ "room1" "bob" (by decide) (by decide)⟩

/-- C7: in a registered private room whose stored messages all have
their sender in their reader set (the creation invariant), the unread
count computed by `chatPage` equals the number of messages of the room
excluding those authored by the user or already read by the user. -/
theorem C7_theorem (db : DB) (roomName user : String)
    (htype : db.roomTypeOf roomName = some "private")
    (hsender : ∀ m ∈ db.messages, m.room = roomName → m.sender ∈ m.readBy) :
    chatPage_unread_count db roomName user =
      (db.messages.filter (fun m =>
        m.room == roomName && m.sender != user
          && !(m.readBy.contains user))).length := by
  unfold chatPage_unread_count
  congr 1
  apply List.filter_congr
  intro m hm
  by_cases hread : user ∈ m.readBy
  · simp [htype, hread]
  · by_cases hroom : m.room = roomName
    · have hs : m.sender ≠ user := fun he => hread (he ▸ hsender m hm hroom)
      have hb2 : (m.sender == user) = false := beq_eq_false_iff_ne.mpr hs
      simp [htype, hread, hb2]
      exact fun _ => hs
    · have hb : (m.room == roomName) = false := beq_eq_false_iff_ne.mpr hroom
      simp [hb]

/-- Witness for C7: one private room with one message read only by
its sender. -/
theorem C7_witness :
    let db : DB := ⟨["alice", "bob"], [⟨"private_alice_bob", "private"⟩],
      [⟨1, "alice", "private_alice_bob", JValue.str "hi", ["alice"]⟩], 2⟩
    db.roomTypeOf "private_alice_bob" = some "private" ∧
    (∀ m ∈ db.messages, m.room = "private_alice_bob" → m.sender ∈ m.readBy) ∧
    chatPage_unread_count db "private_alice_bob" "bob" =
      (db.messages.filter (fun m =>
        m.room == "private_alice_bob" && m.sender != "bob"
          && !(m.readBy.contains "bob"))).length :=
  ⟨by decide, by decide,
    C7_theorem _ "private_alice_bob" "bob" (by decide) (by decide)⟩

/-- C10: a `read_receipt` event whose `message_id` is absent or
falsy is silently ignored: the database is unchanged and nothing is
broadcast, with no exception. -/
theorem C10_theorem (db : DB) (roomName scopeUser : String) (data : EventData)
    (htype : dgetD data "type" (.str "chat_message") = .str "read_receipt")
    (hfalsy : (dget data "message_id").truthy = false) :
    receive db roomName scopeUser data = ⟨db, [], none⟩ := by
  simp only [receive, htype, hfalsy]
  simp

/-- Witness for C10: a `read_receipt` event with `message_id = 0`. -/
theorem C10_witness :
    dgetD [("type", JValue.str "read_receipt"), ("message_id", JValue.num 0)]
        "type" (.str "chat_message") = .str "read_receipt" ∧
    (dget [("type", JValue.str "read_receipt"), ("message_id", JValue.num 0)]
        "message_id").truthy = false ∧
    receive ⟨["alice"], [], [], 1⟩ "room1" "alice"
        [("type", JValue.str "read_receipt"), ("message_id", JValue.num 0)]
      = ⟨⟨["alice"], [], [], 1⟩, [], none⟩ :=
  ⟨by decide, by decide,
    C10_theorem ⟨["alice"], [], [], 1⟩ "room1" "alice" _ (by decide) (by decide)⟩

theorem save_message_none (db : DB) (username : JValue) (roomName : String)
    (content : JValue)
    (h : (save_message db username roomName content).2 = none) :
    (save_message db username roomName content).1 = db := by
  cases username with
  | null => rfl
  | bool b => rfl
  | num n => rfl
  | str u =>
    by_cases hu : u ∈ db.users
    · simp [save_message, hu] at h
    · simp [save_message, hu]

/-- C1 (counterexample): the storage write fails (the sender
`carol` is unknown, so `save_message` returns no id), yet the
`chat_message` broadcast is still sent to the room group (with a null
id), contradicting the claim that no broadcast occurs. -/
theorem C1_counterexample :
    let db : DB := ⟨["alice", "bob"], [⟨"private_alice_bob", "private"⟩], [], 1⟩
    let ev : EventData := [("type", JValue.str "chat_message"),
      ("username", JValue.str "carol"), ("message", JValue.str "hi")]
    (save_message db (dget ev "username") "private_alice_bob"
      (JValue.str "hi")).2 = none ∧
    receive db "private_alice_bob" "alice" ev =
      ⟨db, [⟨"chat_private_alice_bob",
          .chatMessage (JValue.str "hi") (JValue.str "carol") none⟩,
        ⟨"chat_lobby",
          .lobbyNotice (JValue.str "carol") (some "alice") none
            (some "private")⟩], none⟩ := by decide

/-- C1 (amended): when the storage write for a `chat_message` event
fails, the `chat_message` broadcast is still sent to the room group,
carrying a null id; the database is unchanged and the session is not
closed (no exception escapes). -/
theorem C1_theorem (db : DB) (roomName scopeUser : String)
    (data : EventData) (message : JValue)
    (htype : dgetD data "type" (.str "chat_message") = .str "chat_message")
    (hmsg : getField data "message" = some message)
    (hfail : (save_message db (dget data "username") roomName message).2 = none) :
    ∃ notice : Payload,
      receive db roomName scopeUser data =
        ⟨db, [⟨"chat_" ++ roomName,
            .chatMessage message (dget data "username") none⟩,
          ⟨"chat_lobby", notice⟩], none⟩ := by
  have h1 := save_message_none db (dget data "username") roomName message hfail
  refine ⟨noticeFor roomName (dget data "username"), ?_⟩
  simp only [receive, htype, hmsg, beq_self_eq_true, if_true, h1, hfail]

/-- Witness for C1: the concrete failing save of the
counterexample input. -/
theorem C1_witness :
    let db : DB := ⟨["alice", "bob"], [⟨"private_alice_bob", "private"⟩], [], 1⟩
    let ev : EventData := [("type", JValue.str "chat_message"),
      ("username", JValue.str "carol"), ("message", JValue.str "hi")]
    dgetD ev "type" (.str "chat_message") = .str "chat_message" ∧
    getField ev "message" = some (JValue.str "hi") ∧
    (save_message db (dget ev "username") "private_alice_bob"
      (JValue.str "hi")).2 = none ∧
    ∃ notice : Payload,
      receive db "private_alice_bob" "alice" ev =
        ⟨db, [⟨"chat_" ++ "private_alice_bob",
            .chatMessage (JValue.str "hi") (dget ev "username") none⟩,
          ⟨"chat_lobby", notice⟩], none⟩ :=
  ⟨by decide, by decide, by decide,
    C1_theorem _ "private_alice_bob" "alice" _ _ (by decide) (by decide)
      (by decide)⟩

/-- C2 (counterexample): a `chat_message` event with no `message`
field makes an uncaught `KeyError` escape the `receive` handler,
contradicting the claim that no exception escapes and the session
stays Active. -/
theorem C2_counterexample :
    receive ⟨["alice"], [], [], 1⟩ "room1" "alice"
      [("type", JValue.str "chat_message"), ("username", JValue.str "alice")]
      = ⟨⟨["alice"], [], [], 1⟩, [], some "KeyError"⟩ := by decide

/-- C2 (amended): an inbound `chat_message` event lacking the
required `message` field raises an exception that escapes the receive
handler; nothing is stored and nothing is broadcast for that event. -/
theorem C2_theorem (db : DB) (roomName scopeUser : String) (data : EventData)
    (htype : dgetD data "type" (.str "chat_message") = .str "chat_message")
    (hmiss : getField data "message" = none) :
    receive db roomName scopeUser data = ⟨db, [], some "KeyError"⟩ := by
  simp only [receive, htype, hmiss, beq_self_eq_true, if_true]

/-- Witness for C2: a concrete `chat_message` event with no body. -/
theorem C2_witness :
    dgetD [("type", JValue.str "chat_message"),
        ("username", JValue.str "alice")] "type" (.str "chat_message")
      = .str "chat_message" ∧
    getField [("type", JValue.str "chat_message"),
        ("username", JValue.str "alice")] "message" = none ∧
    receive ⟨["alice"], [], [], 1⟩ "lobby" "alice"
        [("type", JValue.str "chat_message"), ("username", JValue.str "alice")]
      = ⟨⟨["alice"], [], [], 1⟩, [], some "KeyError"⟩ :=
  ⟨by decide, by decide,
    C2_theorem ⟨["alice"], [], [], 1⟩ "lobby" "alice" _ (by decide) (by decide)⟩

/-- C4: a `chat_message` event in a direct room whose name splits
as `["private", u1, u2]` with distinct embedded identities, sent by a
participant `s`, yields exactly the room-group `chat_message` broadcast
followed by exactly one `notification` to the lobby group, whose
`target_user` is the participant that is not the sender. -/
theorem C4_theorem (db : DB) (scopeUser roomName u1 u2 s : String)
    (content : JValue)
    (hpriv : strContains roomName "private" = true)
    (hsplit : pySplitUnderscore roomName = ["private", u1, u2])
    (hne : u1 ≠ u2) (hs : s = u1 ∨ s = u2) :
    receive db roomName scopeUser
      [("type", .str "chat_message"), ("username", .str s),
        ("message", content)]
      = ⟨(save_message db (.str s) roomName content).1,
         [⟨"chat_" ++ roomName, .chatMessage content (.str s)
            (save_message db (.str s) roomName content).2⟩,
          ⟨"chat_lobby", .lobbyNotice (.str s)
            (some (if s = u1 then u2 else u1)) none (some "private")⟩],
         none⟩ := by
  have h1 : dgetD [("type", JValue.str "chat_message"),
      ("username", JValue.str s), ("message", content)] "type"
      (.str "chat_message") = .str "chat_message" := rfl
  have h2 : dget [("type", JValue.str "chat_message"),
      ("username", JValue.str s), ("message", content)] "username"
      = .str s := rfl
  have h3 : getField [("type", JValue.str "chat_message"),
      ("username", JValue.str s), ("message", content)] "message"
      = some content := rfl
  have hnotice : noticeFor roomName (.str s)
      = .lobbyNotice (.str s) (some (if s = u1 then u2 else u1)) none
          (some "private") := by
    rcases hs with rfl | rfl
    · simp [noticeFor, hpriv, hsplit]
    · have hb : (JValue.str u1 == JValue.str s) = false := by
        simp only [beq_eq_false_iff_ne, ne_eq, JValue.str.injEq]
        exact hne
      have hc : ¬(s = u1) := fun h => hne h.symm
      simp [noticeFor, hpriv, hsplit, hb, hc]
  simp only [receive, h1, h2, h3, beq_self_eq_true, if_true, hnotice]

/-- Witness for C4: `bob` messages `alice` in room
`private_alice_bob`. -/
theorem C4_witness :
    let db : DB := ⟨["alice", "bob"], [⟨"private_alice_bob", "private"⟩], [], 1⟩
    strContains "private_alice_bob" "private" = true ∧
    pySplitUnderscore "private_alice_bob" = ["private", "alice", "bob"] ∧
    ("alice" : String) ≠ "bob" ∧
    (("bob" : String) = "alice" ∨ ("bob" : String) = "bob") ∧
    receive db "private_alice_bob" "alice"
      [("type", .str "chat_message"), ("username", .str "bob"),
        ("message", JValue.str "hi")]
      = ⟨(save_message db (.str "bob") "private_alice_bob"
            (JValue.str "hi")).1,
         [⟨"chat_" ++ "private_alice_bob",
            .chatMessage (JValue.str "hi") (.str "bob")
              (save_message db (.str "bob") "private_alice_bob"
                (JValue.str "hi")).2⟩,
          ⟨"chat_lobby", .lobbyNotice (.str "bob")
            (some (if ("bob" : String) = "alice" then "bob" else "alice"))
            none (some "private")⟩],
         none⟩ :=
  ⟨by decide, by decide, by decide, by decide,
    C4_theorem _ "alice" "private_alice_bob" "alice" "bob" "bob"
      (JValue.str "hi") (by decide) (by decide) (by decide) (by decide)⟩
